import Mathlib

/-!
Shallow embedding of the leo-status GPSDO device decoder
(src/leo-status-driver/src/lib.rs and the drive-current mapping of
src/leo-status/src/dto.rs).

Bytes are modelled as `Nat` values; `u8`/`u32`/`u64` machine arithmetic is
embedded with explicit `% 2^w` where the Rust code can wrap, and Rust
integer division (which panics on a zero divisor) is embedded as
`checkedDiv`, returning `none` at a zero divisor. A transport call is
modelled by its result: `Except InterfaceError (count, buffer)`, the buffer
being the byte contents after the call. `GpsdoDevice.status` returns
`none` for the out-of-bounds slice panic `&buf[..read_count]` when the
reported count exceeds the 2-byte buffer.
-/

/-- Error enum `GpsdoError` of src/leo-status-driver/src/lib.rs. -/
inductive GpsdoError (InterfaceError : Type) where
  | UsbInterfaceError (cause : InterfaceError)
  | ShortDataError (expected received : Nat)
  deriving DecidableEq

/-- Display text of `GpsdoError`, from its thiserror derive, for causes that
display as strings. -/
def GpsdoError.message : GpsdoError String → String
  | .UsbInterfaceError cause => "underlying usb interface errored: " ++ cause
  | .ShortDataError expected received =>
      "received less data than expected from device, expected " ++ toString expected ++
        ", received " ++ toString received

/-- Rust unsigned integer division: panics (here `none`) on a zero divisor. -/
def checkedDiv (a d : Nat) : Option Nat :=
  if d = 0 then none else some (a / d)

/-- Struct `GpsdoConfig` of src/leo-status-driver/src/lib.rs. Fields that are
`u8`/`u32` in Rust are `Nat` here; the decoder establishes their ranges. -/
structure GpsdoConfig where
  output1 : Bool
  output2 : Bool
  level : Nat
  fin : Nat
  n3 : Nat
  n2_hs : Nat
  n2_ls : Nat
  n1_hs : Nat
  nc1_ls : Nat
  nc2_ls : Nat
  skew : Nat
  bw : Nat
  deriving DecidableEq

/-- Struct `GpsdoStatus` of src/leo-status-driver/src/lib.rs. -/
structure GpsdoStatus where
  loss_count : Nat
  sat_lock : Bool
  pll_lock : Bool
  locked : Bool
  deriving DecidableEq

namespace GpsdoDevice

/-- Value of `u32::from_le_bytes(buf[i..i+4])`: little-endian 32-bit read. -/
def le32 (b : Nat → Nat) (i : Nat) : Nat :=
  b i + 256 * b (i + 1) + 65536 * b (i + 2) + 16777216 * b (i + 3)

/-- Byte-layout decode performed by `GpsdoDevice::config` once enough bytes
arrived (src/leo-status-driver/src/lib.rs lines 55-81). `& 0x00FFFFFF` is
`% 16777216`; the `u8` additions `buf[8] + 4` and `buf[12] + 4` wrap at 256. -/
def configDecode (b : Nat → Nat) : GpsdoConfig where
  output1 := (b 0 &&& 1) != 0
  output2 := (b 0 &&& 2) != 0
  level := b 1
  fin := le32 b 2 % 16777216
  n3 := le32 b 5 % 16777216 + 1
  n2_hs := (b 8 + 4) % 256
  n2_ls := le32 b 9 % 16777216 + 1
  n1_hs := (b 12 + 4) % 256
  nc1_ls := le32 b 13 % 16777216 + 1
  nc2_ls := le32 b 16 % 16777216 + 1
  skew := b 19
  bw := b 20

/-- `GpsdoDevice::config`: one feature-report transport round trip, a
short-data check against 21, then the byte-layout decode. -/
def config {InterfaceError : Type} (res : Except InterfaceError (Nat × (Nat → Nat))) :
    Except (GpsdoError InterfaceError) GpsdoConfig :=
  match res with
  | .error e => .error (.UsbInterfaceError e)
  | .ok (size, b) =>
      if size < 21 then .error (.ShortDataError 21 size)
      else .ok (configDecode b)

/-- Bit decode performed by `GpsdoDevice::status` on a full 2-byte report
(src/leo-status-driver/src/lib.rs lines 97-100): clear bit means locked. -/
def statusDecode (b : Nat → Nat) : GpsdoStatus where
  loss_count := b 0
  sat_lock := (b 1 &&& 1) == 0
  pll_lock := (b 1 &&& 2) == 0
  locked := (b 1 &&& 3) == 0

/-- `GpsdoDevice::status`: one `hid_read` into a 2-byte buffer, the slice
`&buf[..read_count]` (a panic, modelled `none`, when `read_count > 2`),
the short-data check against 2, then the bit decode. -/
def status {InterfaceError : Type} (res : Except InterfaceError (Nat × (Nat → Nat))) :
    Option (Except (GpsdoError InterfaceError) GpsdoStatus) :=
  match res with
  | .error e => some (.error (.UsbInterfaceError e))
  | .ok (read_count, b) =>
      if read_count > 2 then none
      else if read_count < 2 then some (.error (.ShortDataError 2 read_count))
      else some (.ok (statusDecode b))

/-- `GpsdoDevice::serial_number`: delegates to the transport, wrapping only
the error; an absent serial number passes through as a successful `none`. -/
def serial_number {InterfaceError : Type} (res : Except InterfaceError (Option String)) :
    Except (GpsdoError InterfaceError) (Option String) :=
  match res with
  | .error e => .error (.UsbInterfaceError e)
  | .ok s => .ok s

end GpsdoDevice

namespace GpsdoConfig

/-- `GpsdoConfig::f3`: `self.fin / self.n3` in `u32`. -/
def f3 (c : GpsdoConfig) : Option Nat :=
  checkedDiv c.fin c.n3

/-- `GpsdoConfig::fosc`: `self.fin as u64 * (self.n2_hs as u64 * self.n2_ls
as u64) / self.n3 as u64`; each `u64` multiplication wraps at `2^64`. -/
def fosc (c : GpsdoConfig) : Option Nat :=
  checkedDiv (c.fin * (c.n2_hs * c.n2_ls % 18446744073709551616) % 18446744073709551616) c.n3

/-- `GpsdoConfig::fout1`: `self.fosc() / (self.n1_hs as u64 * self.nc1_ls as
u64)`. -/
def fout1 (c : GpsdoConfig) : Option Nat :=
  (c.fosc).bind fun f => checkedDiv f (c.n1_hs * c.nc1_ls % 18446744073709551616)

/-- `GpsdoConfig::fout2`: `self.fosc() / (self.n1_hs as u64 * self.nc2_ls as
u64)`. -/
def fout2 (c : GpsdoConfig) : Option Nat :=
  (c.fosc).bind fun f => checkedDiv f (c.n1_hs * c.nc2_ls % 18446744073709551616)

end GpsdoConfig

/-- Drive-current mapping of the `level` code, from the
`From<GpsdoConfig> for ConfigResponse` impl in src/leo-status/src/dto.rs
(lines 108-114): a total match, no error path. -/
def driveCurrent (level : Nat) : Nat :=
  match level with
  | 0 => 8
  | 1 => 16
  | 2 => 24
  | 3 => 32
  | _ => 0

/-- Field ranges every decoded `GpsdoConfig` satisfies: `fin` is 24-bit, the
four biased divisors lie in `[1, 2^24]`, and the offset-encoded `n2_hs`,
`n1_hs` are bytes. -/
theorem configDecode_fields (b : Nat → Nat) :
    (GpsdoDevice.configDecode b).fin < 16777216 ∧
    1 ≤ (GpsdoDevice.configDecode b).n3 ∧ (GpsdoDevice.configDecode b).n3 ≤ 16777216 ∧
    (GpsdoDevice.configDecode b).n2_hs < 256 ∧
    1 ≤ (GpsdoDevice.configDecode b).n2_ls ∧ (GpsdoDevice.configDecode b).n2_ls ≤ 16777216 ∧
    (GpsdoDevice.configDecode b).n1_hs < 256 ∧
    1 ≤ (GpsdoDevice.configDecode b).nc1_ls ∧ (GpsdoDevice.configDecode b).nc1_ls ≤ 16777216 ∧
    1 ≤ (GpsdoDevice.configDecode b).nc2_ls ∧ (GpsdoDevice.configDecode b).nc2_ls ≤ 16777216 := by
  simp only [GpsdoDevice.configDecode]
  refine ⟨?_, ?_, ?_, ?_, ?_, ?_, ?_, ?_, ?_, ?_, ?_⟩ <;> omega

set_option maxRecDepth 4096 in
/-- C1: for every 2-byte status buffer successfully read, `status()` returns
`loss_count` equal to byte 0, `sat_locked` true iff bit 0 of byte 1 is clear,
`pll_locked` true iff bit 1 of byte 1 is clear, `locked` true iff both are
clear; consequently `locked() = (sat_locked() && pll_locked())`. -/
theorem status_decode_bits (b : Nat → Nat) (hb : b 1 < 256) :
    GpsdoDevice.status (Except.ok (2, b) : Except Unit (Nat × (Nat → Nat))) =
      some (Except.ok (GpsdoDevice.statusDecode b)) ∧
    (GpsdoDevice.statusDecode b).loss_count = b 0 ∧
    ((GpsdoDevice.statusDecode b).sat_lock = true ↔ (b 1).testBit 0 = false) ∧
    ((GpsdoDevice.statusDecode b).pll_lock = true ↔ (b 1).testBit 1 = false) ∧
    ((GpsdoDevice.statusDecode b).locked = true ↔
      ((b 1).testBit 0 = false ∧ (b 1).testBit 1 = false)) ∧
    (GpsdoDevice.statusDecode b).locked =
      ((GpsdoDevice.statusDecode b).sat_lock && (GpsdoDevice.statusDecode b).pll_lock) := by
  have key : ∀ x, x < 256 →
      (((x &&& 1) == 0) = true ↔ x.testBit 0 = false) ∧
      (((x &&& 2) == 0) = true ↔ x.testBit 1 = false) ∧
      (((x &&& 3) == 0) = true ↔ (x.testBit 0 = false ∧ x.testBit 1 = false)) ∧
      ((x &&& 3) == 0) = (((x &&& 1) == 0) && ((x &&& 2) == 0)) := by decide
  exact ⟨rfl, rfl, (key (b 1) hb).1, (key (b 1) hb).2.1, (key (b 1) hb).2.2.1,
    (key (b 1) hb).2.2.2⟩

/-- Witness for C1 at the buffer `[23, 0]`: both lock bits clear. -/
theorem status_decode_bits_witness :
    GpsdoDevice.status (Except.ok (2, fun i => if i = 0 then 23 else 0) :
        Except Unit (Nat × (Nat → Nat))) =
      some (Except.ok (GpsdoDevice.statusDecode (fun i => if i = 0 then 23 else 0))) ∧
    (GpsdoDevice.statusDecode (fun i => if i = 0 then 23 else 0)).locked =
      ((GpsdoDevice.statusDecode (fun i => if i = 0 then 23 else 0)).sat_lock &&
        (GpsdoDevice.statusDecode (fun i => if i = 0 then 23 else 0)).pll_lock) :=
  ⟨(status_decode_bits (fun i => if i = 0 then 23 else 0) (by decide)).1,
    (status_decode_bits (fun i => if i = 0 then 23 else 0) (by decide)).2.2.2.2.2⟩

/-- C4: `config()` fails with `ShortData{expected:21, received:n}` whenever the
transport returned `n < 21` bytes, and succeeds with the §3 layout decode
whenever it returned 21 or more. -/
theorem config_short_data {InterfaceError : Type} (n : Nat) (b : Nat → Nat) :
    (n < 21 → GpsdoDevice.config (Except.ok (n, b) : Except InterfaceError (Nat × (Nat → Nat))) =
      Except.error (GpsdoError.ShortDataError 21 n)) ∧
    (21 ≤ n → GpsdoDevice.config (Except.ok (n, b) : Except InterfaceError (Nat × (Nat → Nat))) =
      Except.ok (GpsdoDevice.configDecode b)) := by
  constructor
  · intro h
    simp only [GpsdoDevice.config, if_pos h]
  · intro h
    simp only [GpsdoDevice.config]
    rw [if_neg (by omega)]

/-- Witness for C4 at counts 20 and 21. -/
theorem config_short_data_witness :
    GpsdoDevice.config (Except.ok (20, fun _ => 0) : Except Unit (Nat × (Nat → Nat))) =
      Except.error (GpsdoError.ShortDataError 21 20) ∧
    GpsdoDevice.config (Except.ok (21, fun _ => 0) : Except Unit (Nat × (Nat → Nat))) =
      Except.ok (GpsdoDevice.configDecode (fun _ => 0)) :=
  ⟨(config_short_data 20 (fun _ => 0)).1 (by omega),
    (config_short_data 21 (fun _ => 0)).2 (by omega)⟩

/-- C5: `status()` fails with `ShortData{expected:2, received:n}` for every
read count `n < 2`, including `n = 1`; no partial status is produced. -/
theorem status_short_data {InterfaceError : Type} (n : Nat) (b : Nat → Nat) (h : n < 2) :
    GpsdoDevice.status (Except.ok (n, b) : Except InterfaceError (Nat × (Nat → Nat))) =
      some (Except.error (GpsdoError.ShortDataError 2 n)) := by
  simp only [GpsdoDevice.status]
  rw [if_neg (by omega), if_pos h]

/-- Witness for C5 at count 1, where one byte was usably read. -/
theorem status_short_data_witness :
    GpsdoDevice.status (Except.ok (1, fun _ => 7) : Except Unit (Nat × (Nat → Nat))) =
      some (Except.error (GpsdoError.ShortDataError 2 1)) :=
  status_short_data 1 (fun _ => 7) (by omega)

set_option maxRecDepth 4096 in
/-- C7: the level byte maps to drive current 8, 16, 24, 32 for codes 0-3 and
to 0 for every other byte value; the mapping is total, never an error. -/
theorem drive_current_map :
    driveCurrent 0 = 8 ∧ driveCurrent 1 = 16 ∧ driveCurrent 2 = 24 ∧ driveCurrent 3 = 32 ∧
    ∀ l, l < 256 → 4 ≤ l → driveCurrent l = 0 := by
  refine ⟨rfl, rfl, rfl, rfl, ?_⟩
  decide

/-- Witness for C7 at the out-of-range level code 100. -/
theorem drive_current_map_witness : driveCurrent 100 = 0 :=
  drive_current_map.2.2.2.2 100 (by omega) (by omega)

/-- C8: a transport failure is wrapped as `UsbInterfaceError` by `config()`,
`status()` and `serial_number()`; its display text is "underlying usb
interface errored: " followed by the cause verbatim; an absent serial number
propagates as a successful absent value. -/
theorem transport_error_wrapping {InterfaceError : Type} (err : InterfaceError) (cause : String) :
    GpsdoDevice.config (Except.error err : Except InterfaceError (Nat × (Nat → Nat))) =
      Except.error (GpsdoError.UsbInterfaceError err) ∧
    GpsdoDevice.status (Except.error err : Except InterfaceError (Nat × (Nat → Nat))) =
      some (Except.error (GpsdoError.UsbInterfaceError err)) ∧
    GpsdoDevice.serial_number (Except.error err : Except InterfaceError (Option String)) =
      Except.error (GpsdoError.UsbInterfaceError err) ∧
    (GpsdoError.UsbInterfaceError cause : GpsdoError String).message =
      "underlying usb interface errored: " ++ cause ∧
    (∃ p, (GpsdoError.UsbInterfaceError cause : GpsdoError String).message = p ++ cause) ∧
    GpsdoDevice.serial_number (Except.ok none : Except InterfaceError (Option String)) =
      Except.ok none :=
  ⟨rfl, rfl, rfl, rfl, ⟨"underlying usb interface errored: ", rfl⟩, rfl⟩

/-- C10: `status()` returns some result (success or a wrapped error) whenever
the transport honors the 2-byte buffer bound, and panics (modelled `none`) on
the slice `&buf[..read_count]` whenever the reported count exceeds 2. -/
theorem status_buffer_bound {InterfaceError : Type} (e : InterfaceError) (n : Nat)
    (b : Nat → Nat) :
    (GpsdoDevice.status (Except.error e : Except InterfaceError (Nat × (Nat → Nat)))).isSome =
      true ∧
    (n ≤ 2 → (GpsdoDevice.status (Except.ok (n, b) :
      Except InterfaceError (Nat × (Nat → Nat)))).isSome = true) ∧
    (2 < n → GpsdoDevice.status (Except.ok (n, b) :
      Except InterfaceError (Nat × (Nat → Nat))) = none) := by
  refine ⟨rfl, ?_, ?_⟩
  · intro h
    simp only [GpsdoDevice.status]
    rw [if_neg (by omega)]
    by_cases hn : n < 2
    · rw [if_pos hn]
      rfl
    · rw [if_neg hn]
      rfl
  · intro h
    simp only [GpsdoDevice.status]
    rw [if_pos (by omega)]

/-- Witness for C10 at counts 2 and 3. -/
theorem status_buffer_bound_witness :
    (GpsdoDevice.status (Except.ok (2, fun _ => 0) :
      Except Unit (Nat × (Nat → Nat)))).isSome = true ∧
    GpsdoDevice.status (Except.ok (3, fun _ => 0) : Except Unit (Nat × (Nat → Nat))) = none :=
  ⟨(status_buffer_bound () 2 (fun _ => 0)).2.1 (by omega),
    (status_buffer_bound () 3 (fun _ => 0)).2.2 (by omega)⟩

/-- The 64-bit wraps in `fosc` never fire for a decoded config: the product
`fin * n2_hs * n2_ls` stays below `2^56 < 2^64`, so `fosc` is the plain
truncating quotient. -/
theorem fosc_eq (b : Nat → Nat) :
    (GpsdoDevice.configDecode b).fosc =
      some ((GpsdoDevice.configDecode b).fin * (GpsdoDevice.configDecode b).n2_hs *
        (GpsdoDevice.configDecode b).n2_ls / (GpsdoDevice.configDecode b).n3) := by
  obtain ⟨hfin, hn3l, hn3u, hn2hs, hn2lsl, hn2lsu, hn1hs, hnc1l, hnc1u, hnc2l, hnc2u⟩ :=
    configDecode_fields b
  set c := GpsdoDevice.configDecode b
  have h1 : c.n2_hs * c.n2_ls % 18446744073709551616 = c.n2_hs * c.n2_ls :=
    Nat.mod_eq_of_lt (lt_of_le_of_lt (Nat.mul_le_mul (le_of_lt hn2hs) hn2lsu) (by norm_num))
  have h2 : c.fin * (c.n2_hs * c.n2_ls) % 18446744073709551616 = c.fin * (c.n2_hs * c.n2_ls) :=
    Nat.mod_eq_of_lt (lt_of_le_of_lt
      (Nat.mul_le_mul (le_of_lt hfin) (Nat.mul_le_mul (le_of_lt hn2hs) hn2lsu)) (by norm_num))
  have hn3ne : c.n3 ≠ 0 := by omega
  simp only [GpsdoConfig.fosc, h1, h2, checkedDiv, if_neg hn3ne, Nat.mul_assoc]

/-- C2: for every decoded config, `f3` is `fin / n3`, `fosc` is
`fin * n2_hs * n2_ls / n3` computed without 64-bit overflow, and `fout1`,
`fout2` divide `fosc` by `n1_hs * nc1_ls` and `n1_hs * nc2_ls`, all with
truncating integer division. -/
theorem config_derived_frequencies (b : Nat → Nat) (c : GpsdoConfig)
    (hc : c = GpsdoDevice.configDecode b) :
    c.f3 = some (c.fin / c.n3) ∧
    c.fosc = some (c.fin * c.n2_hs * c.n2_ls / c.n3) ∧
    c.fout1 = checkedDiv (c.fin * c.n2_hs * c.n2_ls / c.n3) (c.n1_hs * c.nc1_ls) ∧
    c.fout2 = checkedDiv (c.fin * c.n2_hs * c.n2_ls / c.n3) (c.n1_hs * c.nc2_ls) := by
  subst hc
  obtain ⟨hfin, hn3l, hn3u, hn2hs, hn2lsl, hn2lsu, hn1hs, hnc1l, hnc1u, hnc2l, hnc2u⟩ :=
    configDecode_fields b
  have hf := fosc_eq b
  set c := GpsdoDevice.configDecode b
  have hn3ne : c.n3 ≠ 0 := by omega
  have hd1 : c.n1_hs * c.nc1_ls % 18446744073709551616 = c.n1_hs * c.nc1_ls :=
    Nat.mod_eq_of_lt (lt_of_le_of_lt (Nat.mul_le_mul (le_of_lt hn1hs) hnc1u) (by norm_num))
  have hd2 : c.n1_hs * c.nc2_ls % 18446744073709551616 = c.n1_hs * c.nc2_ls :=
    Nat.mod_eq_of_lt (lt_of_le_of_lt (Nat.mul_le_mul (le_of_lt hn1hs) hnc2u) (by norm_num))
  refine ⟨?_, hf, ?_, ?_⟩
  · simp only [GpsdoConfig.f3, checkedDiv, if_neg hn3ne]
  · simp only [GpsdoConfig.fout1, hf, Option.some_bind, hd1]
  · simp only [GpsdoConfig.fout2, hf, Option.some_bind, hd2]

/-- Witness for C2 at the all-ones buffer. -/
theorem config_derived_frequencies_witness :
    (GpsdoDevice.configDecode (fun _ => 1)).fosc =
      some ((GpsdoDevice.configDecode (fun _ => 1)).fin *
        (GpsdoDevice.configDecode (fun _ => 1)).n2_hs *
        (GpsdoDevice.configDecode (fun _ => 1)).n2_ls /
        (GpsdoDevice.configDecode (fun _ => 1)).n3) :=
  (config_derived_frequencies (fun _ => 1) (GpsdoDevice.configDecode (fun _ => 1)) rfl).2.1

/-- Counterexample to C3: at a feature-report buffer whose byte 12 is 252,
the `u8` addition `buf[12] + 4` wraps to 0, so `fout1()` divides by zero (a
panic, modelled `none`) even though all four biased divisors are nonzero. -/
theorem fout1_div_by_zero_cex :
    (GpsdoDevice.configDecode (fun i => if i = 12 then 252 else 0)).n1_hs = 0 ∧
    (GpsdoDevice.configDecode (fun i => if i = 12 then 252 else 0)).fout1 = none := by
  refine ⟨rfl, rfl⟩

/-- C3 (amended): each biased divisor masks to 24 bits before the +1, so it
lies in `[1, 2^24]` and is never zero; hence no division by zero occurs in
`f3()` or `fosc()`. `fout1()` and `fout2()` additionally divide by `n1_hs`,
and they divide by zero exactly when `n1_hs` is zero (byte 12 = 252 after
the wrapping +4). -/
theorem biased_divisors_nonzero (b : Nat → Nat) :
    (1 ≤ (GpsdoDevice.configDecode b).n3 ∧ (GpsdoDevice.configDecode b).n3 ≤ 16777216) ∧
    (1 ≤ (GpsdoDevice.configDecode b).n2_ls ∧ (GpsdoDevice.configDecode b).n2_ls ≤ 16777216) ∧
    (1 ≤ (GpsdoDevice.configDecode b).nc1_ls ∧ (GpsdoDevice.configDecode b).nc1_ls ≤ 16777216) ∧
    (1 ≤ (GpsdoDevice.configDecode b).nc2_ls ∧ (GpsdoDevice.configDecode b).nc2_ls ≤ 16777216) ∧
    ((GpsdoDevice.configDecode b).f3).isSome = true ∧
    ((GpsdoDevice.configDecode b).fosc).isSome = true ∧
    (((GpsdoDevice.configDecode b).fout1).isSome = true ↔
      (GpsdoDevice.configDecode b).n1_hs ≠ 0) ∧
    (((GpsdoDevice.configDecode b).fout2).isSome = true ↔
      (GpsdoDevice.configDecode b).n1_hs ≠ 0) := by
  obtain ⟨hfin, hn3l, hn3u, hn2hs, hn2lsl, hn2lsu, hn1hs, hnc1l, hnc1u, hnc2l, hnc2u⟩ :=
    configDecode_fields b
  have hf := fosc_eq b
  set c := GpsdoDevice.configDecode b
  have hn3ne : c.n3 ≠ 0 := by omega
  have hd1 : c.n1_hs * c.nc1_ls % 18446744073709551616 = c.n1_hs * c.nc1_ls :=
    Nat.mod_eq_of_lt (lt_of_le_of_lt (Nat.mul_le_mul (le_of_lt hn1hs) hnc1u) (by norm_num))
  have hd2 : c.n1_hs * c.nc2_ls % 18446744073709551616 = c.n1_hs * c.nc2_ls :=
    Nat.mod_eq_of_lt (lt_of_le_of_lt (Nat.mul_le_mul (le_of_lt hn1hs) hnc2u) (by norm_num))
  refine ⟨⟨hn3l, hn3u⟩, ⟨hn2lsl, hn2lsu⟩, ⟨hnc1l, hnc1u⟩, ⟨hnc2l, hnc2u⟩, ?_, ?_, ?_, ?_⟩
  · simp only [GpsdoConfig.f3, checkedDiv, if_neg hn3ne, Option.isSome_some]
  · rw [hf]
    rfl
  · simp only [GpsdoConfig.fout1, hf, Option.some_bind, checkedDiv, hd1]
    rcases Nat.eq_zero_or_pos c.n1_hs with h0 | hpos
    · simp [h0]
    · have hne : c.n1_hs * c.nc1_ls ≠ 0 := Nat.mul_ne_zero (by omega) (by omega)
      simp only [if_neg hne, Option.isSome_some, true_iff]
      omega
  · simp only [GpsdoConfig.fout2, hf, Option.some_bind, checkedDiv, hd2]
    rcases Nat.eq_zero_or_pos c.n1_hs with h0 | hpos
    · simp [h0]
    · have hne : c.n1_hs * c.nc2_ls ≠ 0 := Nat.mul_ne_zero (by omega) (by omega)
      simp only [if_neg hne, Option.isSome_some, true_iff]
      omega

/-- Counterexample to C6: at byte 8 = 255 the `u8` addition `buf[8] + 4`
wraps, so `n2_hs` is 3, not 255 + 4 = 259. -/
theorem n2_hs_wrap_cex :
    (GpsdoDevice.configDecode (fun i => if i = 8 then 255 else 0)).n2_hs = 3 ∧
    (GpsdoDevice.configDecode (fun i => if i = 8 then 255 else 0)).n2_hs ≠ 255 + 4 := by
  refine ⟨rfl, by decide⟩

/-- C6 (amended): `n2_hs` is byte 8 plus 4 and `n1_hs` is byte 12 plus 4
reduced modulo 256 (wrapping `u8` addition) — an additive offset, not a
bitmask bias and not a +1 divisor bias; for byte values 0 through 251 the
result is exactly the byte plus 4. -/
theorem hs_offset_encoding (b : Nat → Nat) :
    (GpsdoDevice.configDecode b).n2_hs = (b 8 + 4) % 256 ∧
    (GpsdoDevice.configDecode b).n1_hs = (b 12 + 4) % 256 ∧
    (b 8 < 252 → (GpsdoDevice.configDecode b).n2_hs = b 8 + 4) ∧
    (b 12 < 252 → (GpsdoDevice.configDecode b).n1_hs = b 12 + 4) := by
  refine ⟨rfl, rfl, ?_, ?_⟩ <;> intro h <;> simp only [GpsdoDevice.configDecode] <;> omega

/-- Witness for C6 (amended) at the all-nines buffer. -/
theorem hs_offset_encoding_witness :
    (GpsdoDevice.configDecode (fun _ => 9)).n2_hs = 9 + 4 ∧
    (GpsdoDevice.configDecode (fun _ => 9)).n1_hs = 9 + 4 :=
  ⟨(hs_offset_encoding (fun _ => 9)).2.2.1 (by omega),
    (hs_offset_encoding (fun _ => 9)).2.2.2 (by omega)⟩

/-- C9: `config()` depends only on bytes 0 through 20 of the payload — two
successful transports that agree there (whatever their counts at least 21
and their reserved bytes 21 through 60) decode to equal configs. -/
theorem config_pure_in_payload {InterfaceError : Type} (n1 n2 : Nat) (b1 b2 : Nat → Nat)
    (h1 : 21 ≤ n1) (h2 : 21 ≤ n2) (hb : ∀ i, i < 21 → b1 i = b2 i) :
    GpsdoDevice.config (Except.ok (n1, b1) : Except InterfaceError (Nat × (Nat → Nat))) =
      GpsdoDevice.config (Except.ok (n2, b2) : Except InterfaceError (Nat × (Nat → Nat))) := by
  have e0 := hb 0 (by omega)
  have e1 := hb 1 (by omega)
  have e2 := hb 2 (by omega)
  have e3 := hb 3 (by omega)
  have e4 := hb 4 (by omega)
  have e5 := hb 5 (by omega)
  have e6 := hb 6 (by omega)
  have e7 := hb 7 (by omega)
  have e8 := hb 8 (by omega)
  have e9 := hb 9 (by omega)
  have e10 := hb 10 (by omega)
  have e11 := hb 11 (by omega)
  have e12 := hb 12 (by omega)
  have e13 := hb 13 (by omega)
  have e14 := hb 14 (by omega)
  have e15 := hb 15 (by omega)
  have e16 := hb 16 (by omega)
  have e17 := hb 17 (by omega)
  have e18 := hb 18 (by omega)
  have e19 := hb 19 (by omega)
  have e20 := hb 20 (by omega)
  simp only [GpsdoDevice.config]
  rw [if_neg (by omega), if_neg (by omega)]
  simp only [GpsdoDevice.configDecode, GpsdoDevice.le32, e0, e1, e2, e3, e4, e5, e6, e7, e8,
    e9, e10, e11, e12, e13, e14, e15, e16, e17, e18, e19, e20]

/-- Witness for C9: payloads agreeing on bytes 0-20 but differing in count
and in the reserved tail decode identically. -/
theorem config_pure_in_payload_witness :
    GpsdoDevice.config (Except.ok (21, fun i => i) : Except Unit (Nat × (Nat → Nat))) =
      GpsdoDevice.config
        (Except.ok (61, fun i => if i < 21 then i else 7) : Except Unit (Nat × (Nat → Nat))) :=
  config_pure_in_payload 21 61 (fun i => i) (fun i => if i < 21 then i else 7)
    (by omega) (by omega) (by decide)
